import Mathlib

/-!
Pi Cap touch-triggered text-to-speech (tts.cpp)

A shallow embedding of `tts.cpp`.  The program is a sequence of calls into
three collaborators (the MPR121 touch driver, the wiringPi GPIO functions and
the C/C++ runtime), so the embedding threads an explicit program state through
every statement and records each call, with its arguments, in a call trace.

* The MPR121 driver object is a parameter (`Driver`): main only uses it through
  `begin`, `getError`, `touchStatusChanged`, `updateTouchData`, `getTouchData`
  and `isNewTouch`.
* The hardware condition met by one pass of the loop is an input of type `E`;
  a run of the loop consumes a finite list of them, one per poll cycle.
* Indexing the phrase vector out of bounds is undefined in C++; the embedding
  returns `none` there.
* `intHandler` is a function on the program state; the point at which the
  signal interrupts main is not modelled, so inside a run of the loop the flag
  `keepRunning` keeps the value the run started with.
-/

namespace PiCapTts

/-! ## Constants of tts.cpp -/

def NUM_ELECTRODES : Nat := 12

def RED_LED_PIN : Nat := 22

def GREEN_LED_PIN : Nat := 21

def BLUE_LED_PIN : Nat := 25

/-- Signal number of SIGINT (signal.h). -/
def SIGINT : Nat := 2

/-- Pin mode OUTPUT of wiringPi. -/
def OUTPUT : Nat := 1

/-! ## Data model -/

/-- Modelled from the spec: the error kinds of the MPR121 driver (the enum is
declared in MPR121.h, which is not part of this repository).  The six named
kinds are the ones the switch in main lists; `other` stands for every further
enumerator, which the switch sends to its default branch. -/
inductive mpr121_error_t where
  | NO_ERROR
  | ADDRESS_UNKNOWN
  | READBACK_FAIL
  | OVERCURRENT_FLAG
  | OUT_OF_RANGE
  | NOT_INITED
  | other (code : Nat)
  deriving DecidableEq, Repr

/-- One entry of the call trace: a call made by the program, with its
arguments.  `digitalWrite` carries the level written (true is HIGH). -/
inductive Event where
  | signal (signum : Nat)
  | begin (address : Nat)
  | getError
  | cout (s : String)
  | exit (status : Int)
  | pinMode (pin : Nat) (mode : Nat)
  | digitalWrite (pin : Nat) (value : Bool)
  | lightRGB (r g b : Int)
  | speak (text : String)
  | system (command : String)
  | fileOpen (path : String)
  | touchStatusChanged
  | updateTouchData
  | getTouchData (electrode : Nat)
  | isNewTouch (electrode : Nat)
  | delay (ms : Nat)
  | storeKeepRunning (value : Bool)
  deriving DecidableEq, Repr

/-- How far the process has got. -/
inductive Status where
  | running
  | exited (status : Int)
  | returned (status : Int)
  deriving DecidableEq, Repr

/-- The MPR121 driver object as main uses it.  `S` is the driver's in-memory
state and `E` the hardware condition at one poll.  The three queries are
read-only; `begin` and `updateTouchData` change the driver state. -/
structure Driver (S E : Type) where
  begin : Nat → S → Bool × S
  getError : S → mpr121_error_t
  touchStatusChanged : E → S → Bool
  updateTouchData : E → S → S
  getTouchData : S → Nat → Bool
  isNewTouch : S → Nat → Bool

/-- Program state: the global `keepRunning`, the global driver object, the
GPIO output levels (true is HIGH), the vector `texts` of main, the calls made
so far and the process status. -/
structure State (S : Type) where
  keepRunning : Bool
  MPR121 : S
  pins : Nat → Bool
  texts : List String
  trace : List Event
  status : Status

/-- State at process start: `keepRunning` is initialised to true, nothing has
been called and the phrase vector does not exist yet. -/
def initialState {S : Type} (mpr : S) (pins : Nat → Bool) : State S :=
  { keepRunning := true, MPR121 := mpr, pins := pins, texts := [],
    trace := [], status := .running }

/-! ## Primitive calls -/

/-- Record one call. -/
def emit {S : Type} (ev : Event) (st : State S) : State S :=
  { st with trace := st.trace ++ [ev] }

/-- The wiringPi call digitalWrite(pin, value). -/
def digitalWrite {S : Type} (pin : Nat) (value : Bool) (st : State S) : State S :=
  emit (.digitalWrite pin value) { st with pins := Function.update st.pins pin value }

/-- The wiringPi call pinMode(pin, mode). -/
def pinMode {S : Type} (pin mode : Nat) (st : State S) : State S :=
  emit (.pinMode pin mode) st

/-- The call exit(status): the process ends. -/
def exit {S : Type} (status : Int) (st : State S) : State S :=
  emit (.exit status) { st with status := .exited status }

/-- The C expression `!x` on an int: true exactly when x is zero. -/
def lnot (x : Int) : Bool := decide (x = 0)

/-- The C string a `std::string` hands over through c_str(): the characters
before the first NUL. -/
def c_str (s : String) : String :=
  String.mk (s.data.takeWhile (fun c => c != Char.ofNat 0))

/-! ## The functions of tts.cpp -/

/-- Function lightRGB (lines 43-50). -/
def lightRGB {S : Type} (r g b : Int) (st : State S) : State S :=
  let st := emit (.lightRGB r g b) st
  let st := digitalWrite RED_LED_PIN (lnot r) st
  let st := digitalWrite GREEN_LED_PIN (lnot g) st
  digitalWrite BLUE_LED_PIN (lnot b) st

/-- Function intHandler (lines 53-57). -/
def intHandler {S : Type} (_dummy : Int) (st : State S) : State S :=
  let st := emit (.storeKeepRunning false) { st with keepRunning := false }
  let st := lightRGB 0 0 0 st
  exit 0 st

/-- Function speak (lines 59-65). -/
def speak {S : Type} (text : String) (st : State S) : State S :=
  let st := emit (.speak text) st
  let st := emit (.cout ("speaking: " ++ text ++ "\n")) st
  let textStream := "espeak \"" ++ text ++ "\" --stdout | aplay > /dev/null 2>&1"
  emit (.system (c_str textStream)) st

/-- The switch of main over the error kind (lines 75-97): the text printed. -/
def errorMessage : mpr121_error_t → String
  | .NO_ERROR => "no error"
  | .ADDRESS_UNKNOWN => "incorrect address"
  | .READBACK_FAIL => "readback failure"
  | .OVERCURRENT_FLAG => "overcurrent on REXT pin"
  | .OUT_OF_RANGE => "electrode out of range"
  | .NOT_INITED => "not initialised"
  | .other _ => "unknown error"

/-- The conversion `%03d` of sprintf on a non-negative int. -/
def fmt03d (i : Nat) : String :=
  String.mk (List.replicate (3 - (Nat.repr i).length) '0') ++ Nat.repr i

/-- The path built by sprintf(path, "texts/TEXT%03d.txt", i) (line 114). -/
def textPath (i : Nat) : String :=
  "texts/TEXT" ++ fmt03d i ++ ".txt"

/-- Body of the phrase-loading loop (lines 113-127).  `fs` gives the content of
every file that can be opened for reading; a stream that could not be opened
yields no characters. -/
def loadText {S : Type} (fs : String → Option String) (st : State S) (i : Nat) : State S :=
  let path := textPath i
  let st := emit (.cout ("loading file: " ++ path ++ "\n")) st
  let st := emit (.fileOpen path) st
  let text := match fs path with
    | some content => content
    | none => ""
  { st with texts := st.texts ++ [text] }

/-- The phrase-loading loop (lines 112-128), over the given indices. -/
def loadTexts {S : Type} (fs : String → Option String) (idx : List Nat) (st : State S) : State S :=
  idx.foldl (loadText fs) st

/-- The loop over the electrodes (lines 136-146), over the given indices,
carrying the local `isAnyTouchRegistered`. -/
def forElectrodes {S E : Type} (d : Driver S E) :
    List Nat → Bool → State S → Option (Bool × State S)
  | [], isAnyTouchRegistered, st => some (isAnyTouchRegistered, st)
  | i :: rest, isAnyTouchRegistered, st =>
    let touched := d.getTouchData st.MPR121 i
    let st := emit (.getTouchData i) st
    let isAnyTouchRegistered := if touched then true else isAnyTouchRegistered
    let newTouch := d.isNewTouch st.MPR121 i
    let st := emit (.isNewTouch i) st
    if newTouch then
      match st.texts[i]? with
      | some text => forElectrodes d rest isAnyTouchRegistered (speak text st)
      | none => none
    else forElectrodes d rest isAnyTouchRegistered st

/-- One pass through the body of the while loop (lines 131-158). -/
def pollCycle {S E : Type} (d : Driver S E) (e : E) (st : State S) : Option (State S) :=
  let changed := d.touchStatusChanged e st.MPR121
  let st := emit .touchStatusChanged st
  if changed then
    let st := emit .updateTouchData { st with MPR121 := d.updateTouchData e st.MPR121 }
    match forElectrodes d (List.range NUM_ELECTRODES) false st with
    | none => none
    | some (isAnyTouchRegistered, st) =>
      let st := if isAnyTouchRegistered then lightRGB 1 0 0 st else lightRGB 0 0 0 st
      some (emit (.delay 10) st)
  else
    some (emit (.delay 10) st)

/-- The statement `return(0)` of main (line 162). -/
def mainReturn {S : Type} (st : State S) : State S :=
  { st with status := .returned 0 }

/-- The while loop of main (lines 130-162) run against the hardware conditions
`envs`, one per poll cycle.  When the conditions are used up and the flag is
still true the loop is still running and the state reached is returned. -/
def mainLoop {S E : Type} (d : Driver S E) : List E → State S → Option (State S)
  | [], st => if st.keepRunning then some st else some (mainReturn st)
  | e :: envs, st =>
    if st.keepRunning then
      match pollCycle d e st with
      | some st => mainLoop d envs st
      | none => none
    else some (mainReturn st)

/-- Function main (lines 67-163). -/
def main {S E : Type} (d : Driver S E) (fs : String → Option String) (envs : List E)
    (st : State S) : Option (State S) :=
  let st := emit (.signal SIGINT) st
  let r := d.begin 0x5C st.MPR121
  let st := emit (.begin 0x5C) { st with MPR121 := r.2 }
  if !r.1 then
    let st := emit (.cout "error setting up MPR121: ") st
    let err := d.getError st.MPR121
    let st := emit .getError st
    let st := emit (.cout (errorMessage err ++ "\n")) st
    some (exit 1 st)
  else
    let st := pinMode RED_LED_PIN OUTPUT st
    let st := pinMode GREEN_LED_PIN OUTPUT st
    let st := pinMode BLUE_LED_PIN OUTPUT st
    let st := lightRGB 0 0 0 st
    let st := { st with texts := [] }
    let st := loadTexts fs (List.range NUM_ELECTRODES) st
    mainLoop d envs st

/-! ## Reading the call trace -/

/-- The arguments of the calls to speak, in call order. -/
def speakCalls (tr : List Event) : List String :=
  tr.filterMap (fun ev => match ev with
    | .speak text => some text
    | _ => none)

/-- The arguments of the calls to lightRGB, in call order. -/
def lightCalls (tr : List Event) : List (Int × Int × Int) :=
  tr.filterMap (fun ev => match ev with
    | .lightRGB r g b => some (r, g, b)
    | _ => none)

/-- The pin writes (pin, level), in call order. -/
def pinWrites (tr : List Event) : List (Nat × Bool) :=
  tr.filterMap (fun ev => match ev with
    | .digitalWrite pin value => some (pin, value)
    | _ => none)

/-- The calls a run makes for one electrode index inside the electrode loop,
when the driver is in state `s` and the phrase vector is `texts`. -/
def electrodeCalls {S E : Type} (d : Driver S E) (s : S) (texts : List String) (i : Nat) :
    List Event :=
  [.getTouchData i, .isNewTouch i] ++
    (if d.isNewTouch s i then
      match texts[i]? with
      | some text =>
        [.speak text, .cout ("speaking: " ++ text ++ "\n"),
         .system (c_str ("espeak \"" ++ text ++ "\" --stdout | aplay > /dev/null 2>&1"))]
      | none => []
    else [])

/-- The calls of one lightRGB call. -/
def lightEvents (r g b : Int) : List Event :=
  [.lightRGB r g b, .digitalWrite RED_LED_PIN (lnot r), .digitalWrite GREEN_LED_PIN (lnot g),
   .digitalWrite BLUE_LED_PIN (lnot b)]

/-- The pin levels after one lightRGB call. -/
def lightPins (r g b : Int) (pins : Nat → Bool) : Nat → Bool :=
  Function.update (Function.update (Function.update pins RED_LED_PIN (lnot r))
    GREEN_LED_PIN (lnot g)) BLUE_LED_PIN (lnot b)

/-- Whether some electrode below NUM_ELECTRODES is touched in driver state `s`. -/
def anyTouched {S E : Type} (d : Driver S E) (s : S) : Bool :=
  (List.range NUM_ELECTRODES).any (d.getTouchData s)

/-- The calls of the electrode loop of one cycle. -/
def loopCalls {S E : Type} (d : Driver S E) (s : S) (texts : List String) : List Event :=
  (List.range NUM_ELECTRODES).flatMap (electrodeCalls d s texts)

/-- The calls of one poll cycle met in driver state `s`. -/
def cycleCalls {S E : Type} (d : Driver S E) (e : E) (s : S) (texts : List String) :
    List Event :=
  if d.touchStatusChanged e s then
    [.touchStatusChanged, .updateTouchData] ++ loopCalls d (d.updateTouchData e s) texts ++
      lightEvents (if anyTouched d (d.updateTouchData e s) then 1 else 0) 0 0 ++ [.delay 10]
  else [.touchStatusChanged, .delay 10]

/-- The driver state after the poll cycles `envs`. -/
def runDriver {S E : Type} (d : Driver S E) : List E → S → S
  | [], s => s
  | e :: envs, s =>
    runDriver d envs (if d.touchStatusChanged e s then d.updateTouchData e s else s)

/-- The calls of the poll cycles `envs`. -/
def runCalls {S E : Type} (d : Driver S E) : List E → S → List String → List Event
  | [], _, _ => []
  | e :: envs, s, texts =>
    cycleCalls d e s texts ++
      runCalls d envs (if d.touchStatusChanged e s then d.updateTouchData e s else s) texts

/-- The pin levels after the poll cycles `envs`. -/
def runPins {S E : Type} (d : Driver S E) : List E → S → (Nat → Bool) → (Nat → Bool)
  | [], _, pins => pins
  | e :: envs, s, pins =>
    if d.touchStatusChanged e s then
      runPins d envs (d.updateTouchData e s)
        (lightPins (if anyTouched d (d.updateTouchData e s) then 1 else 0) 0 0 pins)
    else runPins d envs s pins

/-- The calls main makes before its loop when the sensor starts up. -/
def setupCalls : List Event :=
  [.signal SIGINT, .begin 0x5C, .pinMode RED_LED_PIN OUTPUT, .pinMode GREEN_LED_PIN OUTPUT,
   .pinMode BLUE_LED_PIN OUTPUT] ++ lightEvents 0 0 0 ++
   (List.range NUM_ELECTRODES).flatMap (fun i =>
     [Event.cout ("loading file: " ++ textPath i ++ "\n"), Event.fileOpen (textPath i)])

/-- The phrase vector main builds from the files `fs`. -/
def loadedTexts (fs : String → Option String) : List String :=
  (List.range NUM_ELECTRODES).map (fun i =>
    match fs (textPath i) with
    | some content => content
    | none => "")

/-! ## The touch history, in the words of the specification -/

/-- Electrode `i` goes from untouched to touched when the driver in state `s`
refreshes under hardware condition `e`. -/
def touchDown {S E : Type} (d : Driver S E) (e : E) (s : S) (i : Nat) : Bool :=
  !d.getTouchData s i && d.getTouchData (d.updateTouchData e s) i

/-- Number of refreshes, over the poll cycles `envs` started in driver state
`s`, at which electrode `i` goes from untouched to touched.  A refresh happens
in the cycles in which the driver reports a change. -/
def touchDownCount {S E : Type} (d : Driver S E) : List E → S → Nat → Nat
  | [], _, _ => 0
  | e :: envs, s, i =>
    if d.touchStatusChanged e s then
      (if touchDown d e s i then 1 else 0) + touchDownCount d envs (d.updateTouchData e s) i
    else touchDownCount d envs s i

/-- The touch-downs of a run in the order of the specification: refresh by
refresh, and within one refresh by ascending electrode index. -/
def touchDownSeq {S E : Type} (d : Driver S E) : List E → S → List Nat
  | [], _ => []
  | e :: envs, s =>
    if d.touchStatusChanged e s then
      (List.range 12).filter (touchDown d e s) ++ touchDownSeq d envs (d.updateTouchData e s)
    else touchDownSeq d envs s

/-! ## The shell's reading of a double-quoted word -/

/-- The double-quote character. -/
def dquote : Char := Char.ofNat 34

/-- The characters that keep their special meaning inside double quotes in the
POSIX shell (backslash, dollar, backquote), next to the double quote itself. -/
def isShellSpecial (c : Char) : Bool :=
  c == Char.ofNat 92 || c == Char.ofNat 36 || c == Char.ofNat 96

/-- Reads a double-quoted word of the shell after its opening quote: the
literal content up to the closing quote and what follows that quote.  There is
no result when the quote is never closed or when the content is not literal
(it holds an escape or an expansion). -/
def quotedLiteral : List Char → Option (List Char × List Char)
  | [] => none
  | c :: rest =>
    if c = dquote then some ([], rest)
    else if isShellSpecial c then none
    else
      match quotedLiteral rest with
      | some (content, after) => some (c :: content, after)
      | none => none

/-- The quoted argument of espeak in a command line that starts with
`espeak "`, and the rest of the command line after the closing quote. -/
def espeakArgument (command : String) : Option (List Char × List Char) :=
  match command.data with
  | 'e' :: 's' :: 'p' :: 'e' :: 'a' :: 'k' :: ' ' :: q :: rest =>
    if q = dquote then quotedLiteral rest else none
  | _ => none

/-- The command lines handed to system, in call order. -/
def systemCalls (tr : List Event) : List String :=
  tr.filterMap (fun ev => match ev with
    | .system command => some command
    | _ => none)

/-! ## Sample data -/

/-- State of the sample driver: the current and the previous snapshot as bit
masks, whether the controller answers at start-up, and the error kind it
reports. -/
structure Snapshots where
  touchData : Nat
  lastTouchData : Nat
  ok : Bool
  error : mpr121_error_t
  deriving DecidableEq, Repr

/-- Hardware condition at one poll: the level of the interrupt line and the
touch status the controller would deliver. -/
structure Poll where
  irq : Bool
  reading : Nat
  deriving DecidableEq, Repr

/-- A sample driver that keeps the contract of the Touch Controller Adapter:
a refresh moves the current snapshot to the previous one and takes the new
reading, and a new touch is a bit set now and clear before. -/
def sampleDriver : Driver Snapshots Poll where
  begin := fun _ s => (s.ok, { s with touchData := 0, lastTouchData := 0 })
  getError := fun s => s.error
  touchStatusChanged := fun e _ => e.irq
  updateTouchData := fun e s => { s with lastTouchData := s.touchData, touchData := e.reading }
  getTouchData := fun s i => s.touchData.testBit i
  isNewTouch := fun s i => s.touchData.testBit i && !s.lastTouchData.testBit i

/-- A phrase table with twelve entries, two of them empty. -/
def sampleTexts : List String :=
  ["hello", "goodbye", "", "three", "four", "five", "six", "seven", "eight", "nine", "ten", ""]

/-- A running state with the LED off and no electrode touched. -/
def sampleState : State Snapshots :=
  { keepRunning := true
    MPR121 := { touchData := 0, lastTouchData := 0, ok := true, error := .NO_ERROR }
    pins := fun _ => true
    texts := sampleTexts
    trace := []
    status := .running }

/-- A driver state in which start-up fails with the address-unknown kind. -/
def failedMpr : Snapshots :=
  { touchData := 0, lastTouchData := 0, ok := false, error := .ADDRESS_UNKNOWN }

/-- A driver state in which start-up succeeds. -/
def goodMpr : Snapshots :=
  { touchData := 0, lastTouchData := 0, ok := true, error := .NO_ERROR }

/-- A file system that holds the phrase files of electrodes 0 and 1 only. -/
def sampleFiles (path : String) : Option String :=
  if path = "texts/TEXT000.txt" then some "hello"
  else if path = "texts/TEXT001.txt" then some "goodbye"
  else none

/-- A run of five poll cycles: electrode 0 goes down, is held (no change
reported), is released while electrode 1 goes down, then both are touched, then
both are released. -/
def sampleRun : List Poll :=
  [⟨true, 1⟩, ⟨false, 1⟩, ⟨true, 2⟩, ⟨true, 3⟩, ⟨true, 0⟩]

/-- The previous snapshot of the sample driver. -/
def samplePrev (s : Snapshots) (i : Nat) : Bool := s.lastTouchData.testBit i

/-- A phrase with a NUL character in the middle. -/
def nulText : String := String.mk ['a', Char.ofNat 0, 'b']

/-- A phrase that closes the quote opened by speak and carries a second command. -/
def quoteText : String := "a\" ; echo b ; \""

/-! ## Lemmas -/

theorem lightRGB_eq {S : Type} (r g b : Int) (st : State S) :
    lightRGB r g b st =
      { st with pins := lightPins r g b st.pins, trace := st.trace ++ lightEvents r g b } := by
  simp [lightRGB, digitalWrite, emit, lightPins, lightEvents]

theorem forElectrodes_eq {S E : Type} (d : Driver S E) (idx : List Nat) :
    ∀ (any : Bool) (st : State S), (∀ i ∈ idx, i < st.texts.length) →
      forElectrodes d idx any st =
        some (any || idx.any (d.getTouchData st.MPR121),
          { st with trace := st.trace ++ idx.flatMap (electrodeCalls d st.MPR121 st.texts) }) := by
  induction idx with
  | nil => intro any st _; simp [forElectrodes]
  | cons i rest ih =>
    intro any st h
    have hi : i < st.texts.length := h i (List.mem_cons_self _ _)
    have hrest : ∀ j ∈ rest, j < st.texts.length := fun j hj => h j (List.mem_cons_of_mem _ hj)
    have hget : st.texts[i]? = some (st.texts[i]) := List.getElem?_eq_getElem hi
    unfold forElectrodes
    by_cases hn : d.isNewTouch st.MPR121 i = true
    · simp only [emit, hn, if_true, hget]
      rw [ih _ _ (by simpa [speak, emit] using hrest)]
      cases hg : d.getTouchData st.MPR121 i <;>
        simp [speak, emit, electrodeCalls, hn, hget, hg, List.flatMap_cons]
    · simp only [emit, hn]
      rw [ih _ _ (by simpa using hrest)]
      cases hg : d.getTouchData st.MPR121 i <;>
        simp [electrodeCalls, hn, hg, List.flatMap_cons]

theorem anyTouched_iff {S E : Type} (d : Driver S E) (s : S) :
    anyTouched d s = true ↔ ∃ i, i < 12 ∧ d.getTouchData s i = true := by
  simp [anyTouched, NUM_ELECTRODES, List.any_eq_true]

theorem pollCycle_unchanged {S E : Type} (d : Driver S E) (e : E) (st : State S)
    (h : d.touchStatusChanged e st.MPR121 = false) :
    pollCycle d e st =
      some { st with trace := st.trace ++ [.touchStatusChanged, .delay 10] } := by
  simp [pollCycle, h, emit]

theorem pollCycle_changed {S E : Type} (d : Driver S E) (e : E) (st : State S)
    (hlen : st.texts.length = 12) (h : d.touchStatusChanged e st.MPR121 = true) :
    pollCycle d e st =
      some { st with
        MPR121 := d.updateTouchData e st.MPR121
        pins := lightPins (if anyTouched d (d.updateTouchData e st.MPR121) then 1 else 0) 0 0
          st.pins
        trace := st.trace ++ ([.touchStatusChanged, .updateTouchData] ++
          loopCalls d (d.updateTouchData e st.MPR121) st.texts ++
          lightEvents (if anyTouched d (d.updateTouchData e st.MPR121) then 1 else 0) 0 0 ++
          [.delay 10]) } := by
  have hidx : ∀ (st1 : State S), st1.texts = st.texts →
      ∀ i ∈ List.range NUM_ELECTRODES, i < st1.texts.length := by
    intro st1 h1 i hi
    simp only [NUM_ELECTRODES, List.mem_range] at hi
    rw [h1]
    omega
  unfold pollCycle
  simp only [h, if_true]
  rw [forElectrodes_eq d (List.range NUM_ELECTRODES) false
    (emit Event.updateTouchData { emit Event.touchStatusChanged st with
      MPR121 := d.updateTouchData e (emit Event.touchStatusChanged st).MPR121 })
    (hidx _ rfl)]
  have hany : (List.range NUM_ELECTRODES).any (d.getTouchData (d.updateTouchData e st.MPR121)) =
      anyTouched d (d.updateTouchData e st.MPR121) := rfl
  simp only [emit, Bool.false_or, hany]
  cases ha : anyTouched d (d.updateTouchData e st.MPR121) <;>
    simp [lightRGB_eq, loopCalls]

theorem speakCalls_append (a b : List Event) :
    speakCalls (a ++ b) = speakCalls a ++ speakCalls b := by
  simp [speakCalls]

theorem lightCalls_append (a b : List Event) :
    lightCalls (a ++ b) = lightCalls a ++ lightCalls b := by
  simp [lightCalls]

theorem pinWrites_append (a b : List Event) :
    pinWrites (a ++ b) = pinWrites a ++ pinWrites b := by
  simp [pinWrites]

theorem speakCalls_electrodes {S E : Type} (d : Driver S E) (s : S) (texts : List String)
    (idx : List Nat) (h : ∀ i ∈ idx, i < texts.length) :
    speakCalls (idx.flatMap (electrodeCalls d s texts)) =
      (idx.filter (fun i => d.isNewTouch s i)).map (fun i => texts.getD i "") := by
  induction idx with
  | nil => simp [speakCalls]
  | cons i rest ih =>
    have hi : i < texts.length := h i (List.mem_cons_self _ _)
    have hrest : ∀ j ∈ rest, j < texts.length := fun j hj => h j (List.mem_cons_of_mem _ hj)
    have hget : texts[i]? = some (texts[i]) := List.getElem?_eq_getElem hi
    rw [List.flatMap_cons, speakCalls_append, ih hrest]
    by_cases hn : d.isNewTouch s i = true
    · simp [electrodeCalls, hn, hget, speakCalls, List.filter_cons, List.getD_eq_getElem?_getD]
    · simp [electrodeCalls, hn, speakCalls, List.filter_cons]

theorem lightCalls_electrodes {S E : Type} (d : Driver S E) (s : S) (texts : List String)
    (idx : List Nat) :
    lightCalls (idx.flatMap (electrodeCalls d s texts)) = [] ∧
      pinWrites (idx.flatMap (electrodeCalls d s texts)) = [] := by
  induction idx with
  | nil => simp [lightCalls, pinWrites]
  | cons i rest ih =>
    rw [List.flatMap_cons, lightCalls_append, pinWrites_append, ih.1, ih.2]
    by_cases hn : d.isNewTouch s i = true
    · cases hget : texts[i]? <;> simp [electrodeCalls, hn, hget, lightCalls, pinWrites]
    · simp [electrodeCalls, hn, lightCalls, pinWrites]

theorem mainLoop_running {S E : Type} (d : Driver S E) (envs : List E) :
    ∀ (st : State S), st.keepRunning = true → st.texts.length = 12 →
      mainLoop d envs st =
        some { st with
          MPR121 := runDriver d envs st.MPR121
          pins := runPins d envs st.MPR121 st.pins
          trace := st.trace ++ runCalls d envs st.MPR121 st.texts } := by
  induction envs with
  | nil =>
    intro st hk _
    obtain ⟨k, m, p, t, tr, stat⟩ := st
    simp only at hk
    subst hk
    simp [mainLoop, runDriver, runPins, runCalls]
  | cons e envs ih =>
    intro st hk hlen
    obtain ⟨k, m, p, t, tr, stat⟩ := st
    simp only at hk hlen
    subst hk
    by_cases hc : d.touchStatusChanged e m = true
    · rw [mainLoop]
      simp only [if_true]
      rw [pollCycle_changed d e _ hlen hc]
      simp only []
      rw [ih _ rfl hlen]
      simp [runDriver, runPins, runCalls, cycleCalls, hc]
    · have hc' : d.touchStatusChanged e m = false := by simpa using hc
      rw [mainLoop]
      simp only [if_true]
      rw [pollCycle_unchanged d e _ hc']
      simp only []
      rw [ih _ rfl hlen]
      simp [runDriver, runPins, runCalls, cycleCalls, hc']

theorem loadTexts_eq {S : Type} (fs : String → Option String) (idx : List Nat) :
    ∀ (st : State S), loadTexts fs idx st =
      { st with
        texts := st.texts ++ idx.map (fun i =>
          match fs (textPath i) with
          | some content => content
          | none => "")
        trace := st.trace ++ idx.flatMap (fun i =>
          [Event.cout ("loading file: " ++ textPath i ++ "\n"), Event.fileOpen (textPath i)]) } := by
  induction idx with
  | nil => intro st; simp [loadTexts]
  | cons i rest ih =>
    intro st
    have hstep : loadTexts fs (i :: rest) st = loadTexts fs rest (loadText fs st i) := rfl
    rw [hstep, ih]
    simp [loadText, emit]

theorem loadedTexts_length (fs : String → Option String) : (loadedTexts fs).length = 12 := by
  simp [loadedTexts, NUM_ELECTRODES]

theorem main_started {S E : Type} (d : Driver S E) (fs : String → Option String)
    (envs : List E) (mpr : S) (pins : Nat → Bool) (hok : (d.begin 0x5C mpr).1 = true) :
    main d fs envs (initialState mpr pins) =
      some { keepRunning := true
             MPR121 := runDriver d envs (d.begin 0x5C mpr).2
             pins := runPins d envs (d.begin 0x5C mpr).2 (lightPins 0 0 0 pins)
             texts := loadedTexts fs
             trace := setupCalls ++ runCalls d envs (d.begin 0x5C mpr).2 (loadedTexts fs)
             status := .running } := by
  unfold main
  simp only [initialState, emit, hok, Bool.not_true, pinMode, lightRGB_eq, loadTexts_eq]
  rw [mainLoop_running d envs _ rfl (by simpa using loadedTexts_length fs)]
  simp [setupCalls, loadedTexts]

theorem speakCalls_lightEvents (r g b : Int) : speakCalls (lightEvents r g b) = [] := by
  simp [speakCalls, lightEvents]

theorem speakCalls_cycle {S E : Type} (d : Driver S E) (e : E) (s : S) (texts : List String)
    (hlen : texts.length = 12) :
    speakCalls (cycleCalls d e s texts) =
      if d.touchStatusChanged e s then
        ((List.range 12).filter (fun i => d.isNewTouch (d.updateTouchData e s) i)).map
          (fun i => texts.getD i "")
      else [] := by
  have hidx : ∀ i ∈ List.range 12, i < texts.length := by
    intro i hi
    simp only [List.mem_range] at hi
    omega
  by_cases hc : d.touchStatusChanged e s = true
  · simp only [cycleCalls, hc, if_true, speakCalls_append, loopCalls, NUM_ELECTRODES,
      speakCalls_electrodes d _ texts _ hidx, speakCalls_lightEvents]
    simp [speakCalls]
  · simp [cycleCalls, hc, speakCalls]

theorem speakCalls_run {S E : Type} (d : Driver S E) (prev : S → Nat → Bool)
    (hprev : ∀ e s i, prev (d.updateTouchData e s) i = d.getTouchData s i)
    (hnew : ∀ s i, d.isNewTouch s i = (d.getTouchData s i && !prev s i))
    (texts : List String) (hlen : texts.length = 12) (envs : List E) :
    ∀ (s : S), speakCalls (runCalls d envs s texts) =
      (touchDownSeq d envs s).map (fun i => texts.getD i "") := by
  induction envs with
  | nil => intro s; simp [runCalls, touchDownSeq, speakCalls]
  | cons e envs ih =>
    intro s
    have hfilter : (List.range 12).filter (fun i => d.isNewTouch (d.updateTouchData e s) i) =
        (List.range 12).filter (touchDown d e s) := by
      apply List.filter_congr
      intro i _
      rw [hnew, hprev, touchDown, Bool.and_comm]
    by_cases hc : d.touchStatusChanged e s = true
    · simp [runCalls, touchDownSeq, speakCalls_append, speakCalls_cycle d e s texts hlen, hc, ih,
        hfilter]
    · simp [runCalls, touchDownSeq, speakCalls_append, speakCalls_cycle d e s texts hlen, hc, ih]

theorem count_touchDownSeq {S E : Type} (d : Driver S E) (i : Nat) (hi : i < 12)
    (envs : List E) :
    ∀ (s : S), (touchDownSeq d envs s).count i = touchDownCount d envs s i := by
  have hone : ∀ (q : Nat → Bool), ((List.range 12).filter q).count i = if q i then 1 else 0 := by
    intro q
    by_cases hq : q i = true
    · rw [List.count_filter hq, if_pos hq]
      exact List.count_eq_one_of_mem (List.nodup_range 12) (List.mem_range.2 hi)
    · rw [if_neg hq]
      apply List.count_eq_zero.2
      intro hmem
      exact hq (List.mem_filter.1 hmem).2
  induction envs with
  | nil => intro s; simp [touchDownSeq, touchDownCount]
  | cons e envs ih =>
    intro s
    by_cases hc : d.touchStatusChanged e s = true
    · simp [touchDownSeq, touchDownCount, hc, List.count_append, ih, hone]
    · simp [touchDownSeq, touchDownCount, hc, ih]

theorem sum_indicator_eq_count (a : Nat) (l : List Nat) :
    (l.map (fun i => if a = i then 1 else 0)).sum = l.count a := by
  induction l with
  | nil => simp
  | cons b l ih =>
    by_cases hab : a = b
    · subst hab
      simp [ih, Nat.add_comm]
    · have hba : ¬ b = a := fun h => hab h.symm
      simp [ih, hab, List.count_cons, hba]

theorem count_map_eq_sum (f : Nat → String) (p : String) (l : List Nat)
    (hl : ∀ i ∈ l, i < 12) :
    (l.map f).count p =
      (((List.range 12).filter (fun i => decide (f i = p))).map (fun i => l.count i)).sum := by
  induction l with
  | nil => simp
  | cons a l ih =>
    have ha : a < 12 := hl a (List.mem_cons_self _ _)
    have hrest : ∀ i ∈ l, i < 12 := fun i hi => hl i (List.mem_cons_of_mem _ hi)
    have hcount : ((List.range 12).filter (fun i => decide (f i = p))).count a =
        if f a = p then 1 else 0 := by
      by_cases hq : f a = p
      · rw [List.count_filter (by simpa using hq), if_pos hq]
        exact List.count_eq_one_of_mem (List.nodup_range 12) (List.mem_range.2 ha)
      · rw [if_neg hq]
        apply List.count_eq_zero.2
        intro hmem
        exact hq (by simpa using (List.mem_filter.1 hmem).2)
    have hsplit : (fun i => (a :: l).count i) =
        (fun i => l.count i + if a = i then 1 else 0) := by
      funext i
      by_cases hai : a = i
      · subst hai; simp
      · simp [List.count_cons, hai]
    rw [List.map_cons, List.count_cons, ih hrest, hsplit, List.sum_map_add,
      sum_indicator_eq_count, hcount]
    by_cases hq : f a = p <;> simp [hq]

theorem lightPins_red (r g b : Int) (pins : Nat → Bool) :
    lightPins r g b pins RED_LED_PIN = lnot r := by
  simp [lightPins, Function.update, RED_LED_PIN, GREEN_LED_PIN, BLUE_LED_PIN]

theorem lightPins_green (r g b : Int) (pins : Nat → Bool) :
    lightPins r g b pins GREEN_LED_PIN = lnot g := by
  simp [lightPins, Function.update, RED_LED_PIN, GREEN_LED_PIN, BLUE_LED_PIN]

theorem lightPins_blue (r g b : Int) (pins : Nat → Bool) :
    lightPins r g b pins BLUE_LED_PIN = lnot b := by
  simp [lightPins, Function.update, RED_LED_PIN, GREEN_LED_PIN, BLUE_LED_PIN]

theorem lightPins_other (r g b : Int) (pins : Nat → Bool) (p : Nat)
    (hr : p ≠ 22) (hg : p ≠ 21) (hb : p ≠ 25) :
    lightPins r g b pins p = pins p := by
  simp [lightPins, Function.update, RED_LED_PIN, GREEN_LED_PIN, BLUE_LED_PIN, hr, hg, hb]

theorem runPins_indicator {S E : Type} (d : Driver S E) (envs : List E) :
    ∀ (s : S) (pins : Nat → Bool),
      pins RED_LED_PIN = !anyTouched d s → pins GREEN_LED_PIN = true →
      pins BLUE_LED_PIN = true →
      runPins d envs s pins RED_LED_PIN = !anyTouched d (runDriver d envs s) ∧
        runPins d envs s pins GREEN_LED_PIN = true ∧
        runPins d envs s pins BLUE_LED_PIN = true := by
  induction envs with
  | nil => intro s pins hr hg hb; exact ⟨hr, hg, hb⟩
  | cons e envs ih =>
    intro s pins hr hg hb
    by_cases hc : d.touchStatusChanged e s = true
    · simp only [runPins, runDriver, hc, if_true]
      apply ih
      · rw [lightPins_red]
        cases anyTouched d (d.updateTouchData e s) <;> simp [lnot]
      · rw [lightPins_green]; simp [lnot]
      · rw [lightPins_blue]; simp [lnot]
    · simp only [runPins, runDriver, hc]
      exact ih s pins hr hg hb

theorem main_failed {S E : Type} (d : Driver S E) (fs : String → Option String)
    (envs : List E) (mpr : S) (pins : Nat → Bool) (hfail : (d.begin 0x5C mpr).1 = false) :
    main d fs envs (initialState mpr pins) =
      some { keepRunning := true
             MPR121 := (d.begin 0x5C mpr).2
             pins := pins
             texts := []
             trace := [.signal SIGINT, .begin 0x5C, .cout "error setting up MPR121: ", .getError,
               .cout (errorMessage (d.getError (d.begin 0x5C mpr).2) ++ "\n"), .exit 1]
             status := .exited 1 } := by
  unfold main
  simp [initialState, emit, hfail, exit]

theorem touchDownSeq_lt {S E : Type} (d : Driver S E) (envs : List E) :
    ∀ (s : S), ∀ i ∈ touchDownSeq d envs s, i < 12 := by
  induction envs with
  | nil => intro s i hi; simp [touchDownSeq] at hi
  | cons e envs ih =>
    intro s i hi
    by_cases hc : d.touchStatusChanged e s = true
    · simp only [touchDownSeq, hc, if_true, List.mem_append, List.mem_filter,
        List.mem_range] at hi
      rcases hi with h | h
      · exact h.1
      · exact ih _ i h
    · simp only [touchDownSeq, hc] at hi
      exact ih _ i hi

theorem c_str_of_no_nul (s : String) (h : ∀ c ∈ s.data, c ≠ Char.ofNat 0) : c_str s = s := by
  have htw : s.data.takeWhile (fun c => c != Char.ofNat 0) = s.data := by
    rw [List.takeWhile_eq_self_iff]
    intro c hc
    simpa using h c hc
  simp [c_str, htw]

theorem quotedLiteral_append (t after : List Char)
    (h : ∀ c ∈ t, c ≠ dquote ∧ isShellSpecial c = false) :
    quotedLiteral (t ++ dquote :: after) = some (t, after) := by
  induction t with
  | nil => simp [quotedLiteral]
  | cons c t ih =>
    have hc := h c (List.mem_cons_self _ _)
    have ht := ih (fun x hx => h x (List.mem_cons_of_mem _ hx))
    simp [quotedLiteral, hc.1, hc.2, ht]

theorem speak_trace_of_no_nul {S : Type} (text : String) (st : State S)
    (h : ∀ c ∈ text.data, c ≠ Char.ofNat 0) :
    (speak text st).trace = st.trace ++
      [.speak text, .cout ("speaking: " ++ text ++ "\n"),
       .system ("espeak \"" ++ text ++ "\" --stdout | aplay > /dev/null 2>&1")] := by
  have hall : ∀ c ∈ ("espeak \"" ++ text ++ "\" --stdout | aplay > /dev/null 2>&1").data,
      c ≠ Char.ofNat 0 := by
    intro c hc
    simp only [String.data_append, List.mem_append] at hc
    rcases hc with (hc | hc) | hc
    · revert c
      decide
    · exact h c hc
    · revert c
      decide
  simp [speak, emit, c_str_of_no_nul _ hall]

/-! ## The claims -/

/-- C1: in a poll cycle in which the driver reports a change, with a phrase
table of twelve entries, the calls of the cycle split into a first part and a
last part: the first part calls speak on exactly texts[i] for the indices i
below 12 with isNewTouch(i) true after the refresh, once each and in ascending
order of i (empty phrases included), and writes no LED pin; the last part
holds the one lightRGB call of the cycle and no speak call. -/
theorem cycle_dispatches_new_touches_in_order {S E : Type} (d : Driver S E) (e : E)
    (st : State S) (hlen : st.texts.length = 12)
    (hchg : d.touchStatusChanged e st.MPR121 = true) :
    ∃ st' pre post,
      pollCycle d e st = some st' ∧
      st'.trace = st.trace ++ pre ++ post ∧
      speakCalls pre =
        ((List.range 12).filter (fun i => d.isNewTouch (d.updateTouchData e st.MPR121) i)).map
          (fun i => st.texts.getD i "") ∧
      lightCalls pre = [] ∧ pinWrites pre = [] ∧
      speakCalls post = [] ∧ (lightCalls post).length = 1 ∧ (pinWrites post).length = 3 := by
  have hidx : ∀ i ∈ List.range 12, i < st.texts.length := by
    intro i hi
    simp only [List.mem_range] at hi
    omega
  refine ⟨_, [.touchStatusChanged, .updateTouchData] ++
      loopCalls d (d.updateTouchData e st.MPR121) st.texts,
    lightEvents (if anyTouched d (d.updateTouchData e st.MPR121) then 1 else 0) 0 0 ++
      [.delay 10], pollCycle_changed d e st hlen hchg, ?_, ?_, ?_, ?_, ?_, ?_, ?_⟩
  · simp
  · rw [speakCalls_append, loopCalls, NUM_ELECTRODES, speakCalls_electrodes d _ _ _ hidx]
    simp [speakCalls]
  · rw [lightCalls_append, loopCalls, (lightCalls_electrodes d _ _ _).1]
    simp [lightCalls]
  · rw [pinWrites_append, loopCalls, (lightCalls_electrodes d _ _ _).2]
    simp [pinWrites]
  · simp [speakCalls, lightEvents]
  · simp [lightCalls, lightEvents]
  · simp [pinWrites, lightEvents]

/-- Witness for C1: electrodes 2 and 3 go down in the same cycle; the phrase of
electrode 2 is empty. -/
theorem cycle_dispatches_new_touches_in_order_witness :
    sampleState.texts.length = 12 ∧
    sampleDriver.touchStatusChanged ⟨true, 12⟩ sampleState.MPR121 = true ∧
    ∃ st' pre post,
      pollCycle sampleDriver ⟨true, 12⟩ sampleState = some st' ∧
      st'.trace = sampleState.trace ++ pre ++ post ∧
      speakCalls pre =
        ((List.range 12).filter (fun i => sampleDriver.isNewTouch
          (sampleDriver.updateTouchData ⟨true, 12⟩ sampleState.MPR121) i)).map
          (fun i => sampleState.texts.getD i "") ∧
      lightCalls pre = [] ∧ pinWrites pre = [] ∧
      speakCalls post = [] ∧ (lightCalls post).length = 1 ∧ (pinWrites post).length = 3 :=
  ⟨by decide, by decide,
    cycle_dispatches_new_touches_in_order sampleDriver ⟨true, 12⟩ sampleState
      (by decide) (by decide)⟩

/-- C4: a poll cycle in which touchStatusChanged() is false leaves the whole
program state as it was (flag, driver state, pin levels, phrase table, process
status) and makes two calls only: touchStatusChanged itself and delay(10). -/
theorem unchanged_cycle_is_noop {S E : Type} (d : Driver S E) (e : E) (st : State S)
    (h : d.touchStatusChanged e st.MPR121 = false) :
    pollCycle d e st =
      some { st with trace := st.trace ++ [.touchStatusChanged, .delay 10] } := by
  simp [pollCycle, h, emit]

/-- Witness for C4: the driver reports no change. -/
theorem unchanged_cycle_is_noop_witness :
    sampleDriver.touchStatusChanged ⟨false, 1⟩ sampleState.MPR121 = false ∧
    pollCycle sampleDriver ⟨false, 1⟩ sampleState =
      some { sampleState with
        trace := sampleState.trace ++ [.touchStatusChanged, .delay 10] } :=
  ⟨by decide, unchanged_cycle_is_noop sampleDriver ⟨false, 1⟩ sampleState (by decide)⟩

/-- C5: lightRGB(r,g,b) writes (r == 0) to pin 22, (g == 0) to pin 21 and
(b == 0) to pin 25, in that order, and touches no other pin.  In a poll cycle
that reports a change the pin writes are therefore: pin 22 low, pins 21 and 25
high when some electrode below 12 is touched after the refresh, and all three
pins high when none is. -/
theorem lightRGB_inverts_and_loop_shows_red {S E : Type} (d : Driver S E) (e : E)
    (st : State S) (r g b : Int) :
    ((lightRGB r g b st).trace = st.trace ++
        [.lightRGB r g b, .digitalWrite 22 (decide (r = 0)), .digitalWrite 21 (decide (g = 0)),
         .digitalWrite 25 (decide (b = 0))] ∧
      (lightRGB r g b st).pins 22 = decide (r = 0) ∧
      (lightRGB r g b st).pins 21 = decide (g = 0) ∧
      (lightRGB r g b st).pins 25 = decide (b = 0) ∧
      (∀ p, p ≠ 22 → p ≠ 21 → p ≠ 25 → (lightRGB r g b st).pins p = st.pins p)) ∧
    (st.texts.length = 12 → d.touchStatusChanged e st.MPR121 = true →
      ∃ st' tr, pollCycle d e st = some st' ∧ st'.trace = st.trace ++ tr ∧
        ((∃ i, i < 12 ∧ d.getTouchData (d.updateTouchData e st.MPR121) i = true) →
          pinWrites tr = [(22, false), (21, true), (25, true)] ∧
          st'.pins 22 = false ∧ st'.pins 21 = true ∧ st'.pins 25 = true) ∧
        ((∀ i, i < 12 → d.getTouchData (d.updateTouchData e st.MPR121) i = false) →
          pinWrites tr = [(22, true), (21, true), (25, true)] ∧
          st'.pins 22 = true ∧ st'.pins 21 = true ∧ st'.pins 25 = true)) := by
  constructor
  · rw [lightRGB_eq]
    refine ⟨?_, ?_, ?_, ?_, ?_⟩
    · simp [lightEvents, lnot, RED_LED_PIN, GREEN_LED_PIN, BLUE_LED_PIN]
    · simpa [lnot, RED_LED_PIN] using lightPins_red r g b st.pins
    · simpa [lnot, GREEN_LED_PIN] using lightPins_green r g b st.pins
    · simpa [lnot, BLUE_LED_PIN] using lightPins_blue r g b st.pins
    · intro p hr hg hb
      exact lightPins_other r g b st.pins p hr hg hb
  · intro hlen hchg
    refine ⟨_, _, pollCycle_changed d e st hlen hchg, rfl, ?_, ?_⟩
    · intro hex
      have ha : anyTouched d (d.updateTouchData e st.MPR121) = true :=
        (anyTouched_iff d _).2 hex
      have h22 := lightPins_red 1 0 0 st.pins
      have h21 := lightPins_green 1 0 0 st.pins
      have h25 := lightPins_blue 1 0 0 st.pins
      simp only [RED_LED_PIN, GREEN_LED_PIN, BLUE_LED_PIN] at h22 h21 h25
      simp only [ha, if_true, pinWrites_append, loopCalls, (lightCalls_electrodes d _ _ _).2,
        h22, h21, h25]
      simp [pinWrites, lightEvents, lnot, RED_LED_PIN, GREEN_LED_PIN, BLUE_LED_PIN]
    · intro hall
      have ha : anyTouched d (d.updateTouchData e st.MPR121) = false := by
        cases hx : anyTouched d (d.updateTouchData e st.MPR121)
        · rfl
        · obtain ⟨i, hi, ht⟩ := (anyTouched_iff d _).1 hx
          rw [hall i hi] at ht
          cases ht
      have h22 := lightPins_red 0 0 0 st.pins
      have h21 := lightPins_green 0 0 0 st.pins
      have h25 := lightPins_blue 0 0 0 st.pins
      simp only [RED_LED_PIN, GREEN_LED_PIN, BLUE_LED_PIN] at h22 h21 h25
      simp only [ha, Bool.false_eq_true, if_false, pinWrites_append, loopCalls,
        (lightCalls_electrodes d _ _ _).2, h22, h21, h25]
      simp [pinWrites, lightEvents, lnot, RED_LED_PIN, GREEN_LED_PIN, BLUE_LED_PIN]

/-- Witness for C5: electrodes 2 and 3 are touched after the refresh. -/
theorem lightRGB_inverts_and_loop_shows_red_witness :
    ∃ st' tr, pollCycle sampleDriver ⟨true, 12⟩ sampleState = some st' ∧
      st'.trace = sampleState.trace ++ tr ∧
      pinWrites tr = [(22, false), (21, true), (25, true)] ∧
      st'.pins 22 = false ∧ st'.pins 21 = true ∧ st'.pins 25 = true := by
  obtain ⟨st', tr, h1, h2, h3, _⟩ :=
    (lightRGB_inverts_and_loop_shows_red sampleDriver ⟨true, 12⟩ sampleState 1 0 0).2
      (by decide) (by decide)
  exact ⟨st', tr, h1, h2, h3 ⟨2, by decide, by decide⟩⟩

/-- C6: from every program state, intHandler stores false in keepRunning, then
calls lightRGB(0,0,0), which writes HIGH to pins 22, 21 and 25, then calls
exit(0); it makes no other call (no speak, no driver call), and it leaves the
phrase table and the driver state as they were. -/
theorem intHandler_clears_led_and_exits {S : Type} (dummy : Int) (st : State S) :
    (intHandler dummy st).trace = st.trace ++
        [.storeKeepRunning false, .lightRGB 0 0 0, .digitalWrite 22 true, .digitalWrite 21 true,
         .digitalWrite 25 true, .exit 0] ∧
      (intHandler dummy st).keepRunning = false ∧
      (intHandler dummy st).pins 22 = true ∧
      (intHandler dummy st).pins 21 = true ∧
      (intHandler dummy st).pins 25 = true ∧
      (intHandler dummy st).status = .exited 0 ∧
      (intHandler dummy st).texts = st.texts ∧
      (intHandler dummy st).MPR121 = st.MPR121 := by
  have h22 := lightPins_red 0 0 0 st.pins
  have h21 := lightPins_green 0 0 0 st.pins
  have h25 := lightPins_blue 0 0 0 st.pins
  simp only [RED_LED_PIN, GREEN_LED_PIN, BLUE_LED_PIN] at h22 h21 h25
  simp only [intHandler, lightRGB_eq, exit, emit, h22, h21, h25]
  simp [lightEvents, lnot, RED_LED_PIN, GREEN_LED_PIN, BLUE_LED_PIN]

/-- C9: the loop tests keepRunning before each poll cycle.  When the flag is
false there, the loop is left at once and main returns 0: the call trace and
the rest of the state stay as they are, whatever hardware conditions are still
to come.  When the flag is true, one poll cycle runs and the loop continues,
flag test first, from the state that cycle leaves. -/
theorem loop_tests_flag_first {S E : Type} (d : Driver S E) (e : E) (envs : List E)
    (st : State S) :
    (st.keepRunning = false →
      mainLoop d envs st = some { st with status := .returned 0 }) ∧
    (st.keepRunning = true →
      mainLoop d (e :: envs) st = (pollCycle d e st).bind (mainLoop d envs)) := by
  constructor
  · intro h
    cases envs <;> simp [mainLoop, h, mainReturn]
  · intro h
    rw [mainLoop]
    simp only [h, if_true]
    cases pollCycle d e st <;> rfl

/-- Witness for C9: a state with the flag cleared, and a running state. -/
theorem loop_tests_flag_first_witness :
    mainLoop sampleDriver [⟨true, 1⟩, ⟨true, 3⟩] { sampleState with keepRunning := false } =
        some { sampleState with keepRunning := false, status := .returned 0 } ∧
    mainLoop sampleDriver [⟨true, 1⟩, ⟨true, 3⟩] sampleState =
        (pollCycle sampleDriver ⟨true, 1⟩ sampleState).bind (mainLoop sampleDriver [⟨true, 3⟩]) :=
  ⟨(loop_tests_flag_first sampleDriver ⟨true, 1⟩ [⟨true, 1⟩, ⟨true, 3⟩]
      { sampleState with keepRunning := false }).1 rfl,
   (loop_tests_flag_first sampleDriver ⟨true, 1⟩ [⟨true, 3⟩] sampleState).2 rfl⟩

/-- C7: when MPR121.begin returns false, main prints the prefix and then the
message of the error kind getError reports, and calls exit(1); these are all
its calls after signal and begin, so no phrase file is opened, no pin is
configured or written and no poll cycle runs.  The address-unknown kind gives
"incorrect address"; two kinds with the same message are equal or both
unlisted; every unlisted kind gives "unknown error". -/
theorem begin_failure_reports_and_exits {S E : Type} (d : Driver S E)
    (fs : String → Option String) (envs : List E) (mpr : S) (pins : Nat → Bool)
    (hfail : (d.begin 0x5C mpr).1 = false) :
    ∃ st', main d fs envs (initialState mpr pins) = some st' ∧
      st'.trace = [.signal SIGINT, .begin 0x5C, .cout "error setting up MPR121: ", .getError,
        .cout (errorMessage (d.getError (d.begin 0x5C mpr).2) ++ "\n"), .exit 1] ∧
      st'.status = .exited 1 ∧ st'.texts = [] ∧ st'.pins = pins ∧
      errorMessage .ADDRESS_UNKNOWN = "incorrect address" ∧
      (∀ k1 k2, errorMessage k1 = errorMessage k2 →
        k1 = k2 ∨ ((∃ n, k1 = .other n) ∧ ∃ m, k2 = .other m)) ∧
      (∀ n, errorMessage (.other n) = "unknown error") := by
  refine ⟨_, main_failed d fs envs mpr pins hfail, rfl, rfl, rfl, rfl, rfl, ?_, fun _ => rfl⟩
  · intro k1 k2 h
    cases k1 <;> cases k2 <;>
      first
      | exact Or.inl rfl
      | exact Or.inr ⟨⟨_, rfl⟩, ⟨_, rfl⟩⟩
      | (simp only [errorMessage] at h; exact absurd h (by decide))

/-- Witness for C7: start-up fails with the address-unknown kind. -/
theorem begin_failure_reports_and_exits_witness :
    (sampleDriver.begin 0x5C failedMpr).1 = false ∧
    ∃ st', main sampleDriver sampleFiles sampleRun (initialState failedMpr (fun _ => false)) =
        some st' ∧
      st'.trace = [.signal SIGINT, .begin 0x5C, .cout "error setting up MPR121: ", .getError,
        .cout "incorrect address\n", .exit 1] ∧
      st'.status = .exited 1 ∧ st'.texts = [] := by
  obtain ⟨st', h1, h2, h3, h4, _⟩ :=
    begin_failure_reports_and_exits sampleDriver sampleFiles sampleRun failedMpr
      (fun _ => false) (by decide)
  exact ⟨by decide, st', h1, h2, h3, h4⟩

/-- C8: when the sensor has started, main reaches its loop with a phrase table
of exactly 12 entries (the process is still running, whatever files exist);
entry i is the content of the file at the path built for i when that file can
be read, and the empty string otherwise; the paths built for 0..11 are
texts/TEXT000.txt up to texts/TEXT011.txt; the poll cycles leave the table as
loaded. -/
theorem phrase_table_has_twelve_entries {S E : Type} (d : Driver S E)
    (fs : String → Option String) (envs : List E) (mpr : S) (pins : Nat → Bool)
    (hok : (d.begin 0x5C mpr).1 = true) :
    ∃ st', main d fs envs (initialState mpr pins) = some st' ∧
      st'.status = .running ∧
      st'.texts.length = 12 ∧
      (∀ i, i < 12 →
        (∀ content, fs (textPath i) = some content → st'.texts[i]? = some content) ∧
        (fs (textPath i) = none → st'.texts[i]? = some "")) ∧
      (List.range 12).map textPath =
        ["texts/TEXT000.txt", "texts/TEXT001.txt", "texts/TEXT002.txt", "texts/TEXT003.txt",
         "texts/TEXT004.txt", "texts/TEXT005.txt", "texts/TEXT006.txt", "texts/TEXT007.txt",
         "texts/TEXT008.txt", "texts/TEXT009.txt", "texts/TEXT010.txt", "texts/TEXT011.txt"] := by
  refine ⟨_, main_started d fs envs mpr pins hok, rfl, loadedTexts_length fs, ?_, by decide⟩
  intro i hi
  have hget : (loadedTexts fs)[i]? = some (match fs (textPath i) with
      | some content => content
      | none => "") := by
    simp [loadedTexts, NUM_ELECTRODES, List.getElem?_map, List.getElem?_range hi]
  constructor
  · intro content hc
    simp only [hget, hc]
  · intro hn
    simp only [hget, hn]

/-- Witness for C8: only the files of electrodes 0 and 1 exist. -/
theorem phrase_table_has_twelve_entries_witness :
    (sampleDriver.begin 0x5C goodMpr).1 = true ∧
    ∃ st', main sampleDriver sampleFiles sampleRun (initialState goodMpr (fun _ => false)) =
        some st' ∧
      st'.status = .running ∧
      st'.texts.length = 12 ∧
      st'.texts[0]? = some "hello" ∧ st'.texts[1]? = some "goodbye" ∧ st'.texts[2]? = some "" := by
  obtain ⟨st', h1, h2, h3, h4, _⟩ :=
    phrase_table_has_twelve_entries sampleDriver sampleFiles sampleRun goodMpr
      (fun _ => false) (by decide)
  exact ⟨by decide, st', h1, h2, h3, (h4 0 (by decide)).1 "hello" (by decide),
    (h4 1 (by decide)).1 "goodbye" (by decide), (h4 2 (by decide)).2 (by decide)⟩

/-- C3: when the sensor has started and no electrode below 12 is touched in the
driver snapshot at that point, then after any number of poll cycles of main the
red channel is on (pin 22 low) exactly when some electrode below 12 has
getTouchData true in the driver snapshot reached, and the green and blue
channels are off (pins 21 and 25 high); so the indicator is off whenever that
snapshot has no electrode touched. -/
theorem indicator_follows_snapshot {S E : Type} (d : Driver S E)
    (fs : String → Option String) (envs : List E) (mpr : S) (pins : Nat → Bool)
    (hok : (d.begin 0x5C mpr).1 = true)
    (hnone : ∀ i, i < 12 → d.getTouchData (d.begin 0x5C mpr).2 i = false) :
    ∃ st', main d fs envs (initialState mpr pins) = some st' ∧
      (st'.pins 22 = false ↔ ∃ i, i < 12 ∧ d.getTouchData st'.MPR121 i = true) ∧
      st'.pins 21 = true ∧ st'.pins 25 = true ∧
      ((∀ i, i < 12 → d.getTouchData st'.MPR121 i = false) → st'.pins 22 = true) := by
  have h0 : anyTouched d (d.begin 0x5C mpr).2 = false := by
    cases hx : anyTouched d (d.begin 0x5C mpr).2
    · rfl
    · obtain ⟨i, hi, ht⟩ := (anyTouched_iff d _).1 hx
      rw [hnone i hi] at ht
      cases ht
  obtain ⟨hr, hg, hb⟩ := runPins_indicator d envs (d.begin 0x5C mpr).2 (lightPins 0 0 0 pins)
    (by rw [lightPins_red, h0]; simp [lnot]) (by rw [lightPins_green]; simp [lnot])
    (by rw [lightPins_blue]; simp [lnot])
  simp only [RED_LED_PIN, GREEN_LED_PIN, BLUE_LED_PIN] at hr hg hb
  refine ⟨_, main_started d fs envs mpr pins hok, ?_, hg, hb, ?_⟩
  · simp only [hr, ← anyTouched_iff]
    cases anyTouched d (runDriver d envs (d.begin 0x5C mpr).2) <;> simp
  · intro hall
    simp only [hr]
    cases hx : anyTouched d (runDriver d envs (d.begin 0x5C mpr).2)
    · rfl
    · obtain ⟨i, hi, ht⟩ := (anyTouched_iff d _).1 hx
      rw [hall i hi] at ht
      cases ht

/-- Witness for C3: the sample run ends with every electrode released. -/
theorem indicator_follows_snapshot_witness :
    ∃ st', main sampleDriver sampleFiles sampleRun (initialState goodMpr (fun _ => false)) =
        some st' ∧
      (st'.pins 22 = false ↔ ∃ i, i < 12 ∧ sampleDriver.getTouchData st'.MPR121 i = true) ∧
      st'.pins 21 = true ∧ st'.pins 25 = true ∧
      ((∀ i, i < 12 → sampleDriver.getTouchData st'.MPR121 i = false) → st'.pins 22 = true) :=
  indicator_follows_snapshot sampleDriver sampleFiles sampleRun goodMpr (fun _ => false)
    (by decide) (by decide)

/-- C2: let the driver keep its contract: a refresh makes the current snapshot
the previous one, and isNewTouch(i) holds exactly when i is touched in the
current snapshot and was not in the previous one.  Then over any finite run of
poll cycles the speak calls are, in order, the phrases of the touch-downs of
the run (refresh by refresh, ascending index within a refresh); electrode i
occurs among these touch-downs as often as there are refreshes at which i goes
from untouched to touched; so the number of speak calls with a given phrase is
the total of these numbers over the electrodes carrying that phrase.  A single
cycle in which i stays touched, is released, or no change is reported has no
touch-down of i among its dispatches. -/
theorem one_dispatch_per_touch_down {S E : Type} (d : Driver S E) (prev : S → Nat → Bool)
    (hprev : ∀ e s i, prev (d.updateTouchData e s) i = d.getTouchData s i)
    (hnew : ∀ s i, d.isNewTouch s i = (d.getTouchData s i && !prev s i))
    (envs : List E) (st : State S) (hrun : st.keepRunning = true)
    (hlen : st.texts.length = 12) :
    (∃ st' tr, mainLoop d envs st = some st' ∧ st'.trace = st.trace ++ tr ∧
      speakCalls tr = (touchDownSeq d envs st.MPR121).map (fun i => st.texts.getD i "") ∧
      (∀ i, i < 12 →
        (touchDownSeq d envs st.MPR121).count i = touchDownCount d envs st.MPR121 i) ∧
      (∀ p, (speakCalls tr).count p =
        (((List.range 12).filter (fun i => decide (st.texts.getD i "" = p))).map
          (fun i => touchDownCount d envs st.MPR121 i)).sum)) ∧
    (∀ e i, i < 12 →
      (d.touchStatusChanged e st.MPR121 = false ∨
        (d.getTouchData st.MPR121 i = true ∧
          d.getTouchData (d.updateTouchData e st.MPR121) i = true) ∨
        (d.getTouchData st.MPR121 i = true ∧
          d.getTouchData (d.updateTouchData e st.MPR121) i = false)) →
      ∃ st' tr, pollCycle d e st = some st' ∧ st'.trace = st.trace ++ tr ∧
        speakCalls tr = (touchDownSeq d [e] st.MPR121).map (fun i => st.texts.getD i "") ∧
        i ∉ touchDownSeq d [e] st.MPR121) := by
  constructor
  · have hseq := speakCalls_run d prev hprev hnew st.texts hlen envs st.MPR121
    refine ⟨_, _, mainLoop_running d envs st hrun hlen, rfl, hseq, ?_, ?_⟩
    · intro i hi
      exact count_touchDownSeq d i hi envs st.MPR121
    · intro p
      rw [hseq, count_map_eq_sum _ p _ (touchDownSeq_lt d envs st.MPR121)]
      congr 1
      apply List.map_congr_left
      intro i hi
      have hi12 : i < 12 := by
        have := (List.mem_filter.1 hi).1
        simpa using this
      exact count_touchDownSeq d i hi12 envs st.MPR121
  · intro e i _ hcase
    have hseq := speakCalls_run d prev hprev hnew st.texts hlen [e] st.MPR121
    by_cases hc : d.touchStatusChanged e st.MPR121 = true
    · refine ⟨_, _, pollCycle_changed d e st hlen hc, rfl, ?_, ?_⟩
      · simpa [runCalls, cycleCalls, hc] using hseq
      · have hbefore : d.getTouchData st.MPR121 i = true := by
          rcases hcase with h | h | h
          · rw [h] at hc; cases hc
          · exact h.1
          · exact h.1
        simp [touchDownSeq, hc, touchDown, hbefore]
    · have hc' : d.touchStatusChanged e st.MPR121 = false := by simpa using hc
      refine ⟨_, _, pollCycle_unchanged d e st hc', rfl, ?_, ?_⟩
      · simp [touchDownSeq, hc', speakCalls]
      · simp [touchDownSeq, hc']

/-- Witness for C2: the sample run, in which electrode 0 goes down twice and
electrode 1 once, and a cycle in which electrode 0 is held with no change
reported. -/
theorem one_dispatch_per_touch_down_witness :
    (∃ st' tr, mainLoop sampleDriver sampleRun sampleState = some st' ∧
      st'.trace = sampleState.trace ++ tr ∧
      speakCalls tr = (touchDownSeq sampleDriver sampleRun sampleState.MPR121).map
        (fun i => sampleState.texts.getD i "") ∧
      (∀ i, i < 12 → (touchDownSeq sampleDriver sampleRun sampleState.MPR121).count i =
        touchDownCount sampleDriver sampleRun sampleState.MPR121 i) ∧
      (∀ p, (speakCalls tr).count p =
        (((List.range 12).filter (fun i => decide (sampleState.texts.getD i "" = p))).map
          (fun i => touchDownCount sampleDriver sampleRun sampleState.MPR121 i)).sum)) ∧
    (∃ st' tr, pollCycle sampleDriver ⟨false, 1⟩ sampleState = some st' ∧
      st'.trace = sampleState.trace ++ tr ∧
      speakCalls tr = (touchDownSeq sampleDriver [⟨false, 1⟩] sampleState.MPR121).map
        (fun i => sampleState.texts.getD i "") ∧
      0 ∉ touchDownSeq sampleDriver [⟨false, 1⟩] sampleState.MPR121) :=
  ⟨(one_dispatch_per_touch_down sampleDriver samplePrev (fun _ _ _ => rfl) (fun _ _ => rfl)
      sampleRun sampleState rfl rfl).1,
   (one_dispatch_per_touch_down sampleDriver samplePrev (fun _ _ _ => rfl) (fun _ _ => rfl)
      sampleRun sampleState rfl rfl).2 ⟨false, 1⟩ 0 (by decide) (Or.inl rfl)⟩

/-- C10, as stated, fails: for the phrase a, NUL, b the command line that
reaches system is cut at the NUL; it is not the prefix, the phrase and the
suffix put together. -/
theorem speak_command_cut_at_nul :
    systemCalls (speak nulText sampleState).trace = ["espeak \"a"] ∧
    systemCalls (speak nulText sampleState).trace ≠
      ["espeak \"" ++ nulText ++ "\" --stdout | aplay > /dev/null 2>&1"] := by
  decide

/-- C10, amended: for every phrase without a NUL character, speak hands to
system exactly the prefix, the phrase unchanged and the suffix put together.
For the phrase quoteText, which holds a double quote (and no NUL), the quoted
argument of espeak is only the single character before that quote and the
rest of the phrase stands outside it.  For every phrase free of NUL, double
quote, backslash, dollar and backquote the quoted argument is exactly the
phrase and the rest of the line is the fixed suffix. -/
theorem speak_command_is_unescaped {S : Type} (st : State S) :
    (∀ text : String, (∀ c ∈ text.data, c ≠ Char.ofNat 0) →
      (speak text st).trace = st.trace ++
        [.speak text, .cout ("speaking: " ++ text ++ "\n"),
         .system ("espeak \"" ++ text ++ "\" --stdout | aplay > /dev/null 2>&1")]) ∧
    (Char.ofNat 34 ∈ quoteText.data ∧
      ∃ command, systemCalls (speak quoteText st).trace = systemCalls st.trace ++ [command] ∧
        espeakArgument command =
          some ("a".data, " ; echo b ; \"\" --stdout | aplay > /dev/null 2>&1".data)) ∧
    (∀ text : String,
      (∀ c ∈ text.data, c ≠ Char.ofNat 0 ∧ c ≠ Char.ofNat 34 ∧ c ≠ Char.ofNat 92 ∧
        c ≠ Char.ofNat 36 ∧ c ≠ Char.ofNat 96) →
      ∃ command, systemCalls (speak text st).trace = systemCalls st.trace ++ [command] ∧
        espeakArgument command =
          some (text.data, " --stdout | aplay > /dev/null 2>&1".data)) := by
  refine ⟨fun text h => speak_trace_of_no_nul text st h, ⟨by decide, ?_⟩, ?_⟩
  · refine ⟨"espeak \"" ++ quoteText ++ "\" --stdout | aplay > /dev/null 2>&1", ?_, ?_⟩
    · rw [speak_trace_of_no_nul quoteText st (by decide)]
      simp [systemCalls]
    · decide
  · intro text h
    refine ⟨"espeak \"" ++ text ++ "\" --stdout | aplay > /dev/null 2>&1", ?_, ?_⟩
    · rw [speak_trace_of_no_nul text st (fun c hc => (h c hc).1)]
      simp [systemCalls]
    · have hdata : ("espeak \"" ++ text ++ "\" --stdout | aplay > /dev/null 2>&1").data =
          'e' :: 's' :: 'p' :: 'e' :: 'a' :: 'k' :: ' ' :: dquote ::
            (text.data ++ dquote :: " --stdout | aplay > /dev/null 2>&1".data) := by
        simp only [String.data_append]
        rfl
      have hlit := quotedLiteral_append text.data " --stdout | aplay > /dev/null 2>&1".data
        (fun c hc => by
          obtain ⟨_, h34, h92, h36, h96⟩ := h c hc
          exact ⟨h34, by simp [isShellSpecial, h92, h36, h96]⟩)
      simp only [espeakArgument, hdata, if_true, hlit]

/-- Witness for C10, amended: the phrase hello. -/
theorem speak_command_is_unescaped_witness :
    (speak "hello" sampleState).trace = sampleState.trace ++
        [.speak "hello", .cout "speaking: hello\n",
         .system "espeak \"hello\" --stdout | aplay > /dev/null 2>&1"] ∧
    ∃ command, systemCalls (speak "hello" sampleState).trace =
        systemCalls sampleState.trace ++ [command] ∧
      espeakArgument command =
        some ("hello".data, " --stdout | aplay > /dev/null 2>&1".data) :=
  ⟨(speak_command_is_unescaped sampleState).1 "hello" (by decide),
   (speak_command_is_unescaped sampleState).2.2 "hello" (by decide)⟩

end PiCapTts
